import Mathlib

/-!
Verification development for the TimerApps-CLI usage-accounting core.

The definitions below are a shallow embedding of the Python sources:
  * `src/app_monitor.py`   — `TimerState`, `AppMonitor._update_app_state`,
    `AppMonitor._enforce_limit`, `AppMonitor._monitor_loop`,
    `AppMonitor.reset_app`, `AppMonitor.reset_all`,
    `AppMonitor.get_app_used_time`, `AppMonitor.get_app_used_minutes`.
  * `src/config_manager.py` — the per-day ledger slice touched by
    `update_app_usage`, `get_total_usage`, `reset_app_timer`.
  * `src/utils.py`          — `seconds_to_minutes`.

Modelling conventions:
  * Wall-clock timestamps (`time.time()`) are modelled as whole seconds
    (`Nat`); ticks are assumed time-monotone, so Python
    `int(time.time() - session_start)` is `now - s` on `Nat`.
  * The three per-app dictionaries `_app_states`, `_app_session_start`,
    `_app_total_seconds` together with membership in
    `_app_5min_warning_sent` are always populated and cleared together
    (`_initialize_app_state`, the daily-reset branch), so they are merged
    into one keyed record `AppRecord`; the Python membership test
    `package in self._app_total_seconds` is key presence in that map.
  * The actuator calls (`adb.kill_app` / `adb.freeze_app`) return a
    success boolean; that boolean is an oracle input `actuatorOk` of a
    tick.  A notification sink is present (the default construction).
  * Side effects of one tick (notifications, ledger mark, actuator call)
    are returned as event flags next to the new record.
-/

/-- TimerState from app_monitor.py: INACTIVE / MONITORING / PAUSED / BLOCKED. -/
inductive TimerState where
  | inactive
  | monitoring
  | paused
  | blocked
deriving DecidableEq, Repr

/-- EnforceAction: the "action" field of an app config, "kill" or "freeze". -/
inductive EnforceAction where
  | kill
  | freeze
deriving DecidableEq, Repr

/-- AppConfig: one entry of config_manager's `config["apps"]`. -/
structure AppConfig where
  name : String
  limit_minutes : Nat
  enabled : Bool
  action : EnforceAction
deriving DecidableEq, Repr

/-- AppRecord: the merged per-app slice of AppMonitor's in-memory dicts
`_app_states` / `_app_session_start` / `_app_total_seconds` /
`_app_5min_warning_sent` for one package. -/
structure AppRecord where
  state : TimerState
  sessionStart : Option Nat
  totalSeconds : Nat
  warningSent : Bool
deriving DecidableEq, Repr

/-- secondsToMinutes embeds utils.seconds_to_minutes:
`int(seconds / 60)`, i.e. division by 60 truncated toward zero. -/
def secondsToMinutes (seconds : Int) : Int :=
  Int.tdiv seconds 60

/-- EnforceResult: the new record plus the observable effects of one
`_enforce_limit` call (ledger mark, limit notification, actuator call). -/
structure EnforceResult where
  record : AppRecord
  marked : Bool
  notified : Bool
  actuatorCalled : Bool
deriving DecidableEq, Repr

/-- enforceLimit embeds AppMonitor._enforce_limit.  Guard: no-op when the
app is already BLOCKED.  Otherwise it marks the ledger limit-reached,
sends the limit notification, invokes the actuator (freeze or kill per
config), and moves the app to BLOCKED exactly when the actuator reports
success (`actuatorOk`). -/
def enforceLimit (actuatorOk : Bool) (r : AppRecord) : EnforceResult :=
  if r.state = TimerState.blocked then
    { record := r, marked := false, notified := false, actuatorCalled := false }
  else
    let r1 := if actuatorOk then { r with state := TimerState.blocked } else r
    { record := r1, marked := true, notified := true, actuatorCalled := true }

/-- StepResult: the new record plus the observable effects of one
`_update_app_state` call on one package. -/
structure StepResult where
  record : AppRecord
  warningFired : Bool
  enforceInvoked : Bool
  markedLimit : Bool
  limitNotified : Bool
  actuatorCalled : Bool
deriving DecidableEq, Repr

/-- noEvents wraps a record with all event flags cleared. -/
def noEvents (r : AppRecord) : StepResult :=
  { record := r, warningFired := false, enforceInvoked := false,
    markedLimit := false, limitNotified := false, actuatorCalled := false }

/-- activeAdvance is the `if is_active:` state-machine block of
AppMonitor._update_app_state: BLOCKED stays put; PAUSED and INACTIVE
start MONITORING with `session_start = now`; MONITORING flushes the
elapsed seconds of the current session and re-bases `session_start`.
Python truthiness of `self._app_session_start[package]` (None and 0 are
falsy) is the guard `s ≠ 0` under the `some s` match. -/
def activeAdvance (now : Nat) (r : AppRecord) : AppRecord :=
  match r.state with
  | TimerState.blocked => r
  | TimerState.paused =>
      { r with state := TimerState.monitoring, sessionStart := some now }
  | TimerState.monitoring =>
      match r.sessionStart with
      | some s =>
          if s ≠ 0 then
            { r with totalSeconds := r.totalSeconds + (now - s),
                     sessionStart := some now }
          else r
      | none => r
  | TimerState.inactive =>
      { r with state := TimerState.monitoring, sessionStart := some now }

/-- warnCond is the 5-minute-warning condition of _update_app_state:
`remaining_minutes <= 5 and remaining_minutes > 0 and package not in
self._app_5min_warning_sent` with
`remaining_minutes = seconds_to_minutes(limit_seconds - total)`. -/
def warnCond (limitSeconds : Nat) (r1 : AppRecord) : Bool :=
  let remainingSeconds : Int := (limitSeconds : Int) - (r1.totalSeconds : Int)
  let remainingMinutes := secondsToMinutes remainingSeconds
  decide (remainingMinutes ≤ 5) && decide (0 < remainingMinutes)
    && !r1.warningSent

/-- pauseFlush is the `if current_state == MONITORING:` block of the
inactive branch: flush the pending session seconds (under the same
truthiness guard) and clear `session_start`; the state is set to PAUSED
unconditionally. -/
def pauseFlush (now : Nat) (r : AppRecord) : AppRecord :=
  let r1 :=
    match r.sessionStart with
    | some s =>
        if s ≠ 0 then
          { r with totalSeconds := r.totalSeconds + (now - s),
                   sessionStart := none }
        else r
    | none => r
  { r1 with state := TimerState.paused }

/-- updateAppState embeds AppMonitor._update_app_state for one package on
one tick.  `isActive` is the Python `current_active == package`; `now` is
`time.time()` as whole seconds; `actuatorOk` is the success value the
actuator would return if invoked.  The warning and the limit check run
only in the active branch, after the state-machine advance. -/
def updateAppState (cfg : AppConfig) (isActive : Bool) (now : Nat)
    (actuatorOk : Bool) (r : AppRecord) : StepResult :=
  if cfg.enabled = false then
    noEvents r
  else
    let limitSeconds := cfg.limit_minutes * 60
    if isActive then
      let r1 := activeAdvance now r
      let warn := warnCond limitSeconds r1
      let r2 := if warn then { r1 with warningSent := true } else r1
      if limitSeconds ≤ r2.totalSeconds then
        let e := enforceLimit actuatorOk r2
        { record := e.record, warningFired := warn, enforceInvoked := true,
          markedLimit := e.marked, limitNotified := e.notified,
          actuatorCalled := e.actuatorCalled }
      else
        { record := r2, warningFired := warn, enforceInvoked := false,
          markedLimit := false, limitNotified := false, actuatorCalled := false }
    else
      if r.state = TimerState.monitoring then
        noEvents (pauseFlush now r)
      else
        noEvents r

/-- updateAppStateFor derives the tick for a package from the probe
snapshot, as the monitor loop does: `is_active = current_active == package`
(None compares unequal to every package). -/
def updateAppStateFor (cfg : AppConfig) (package : String)
    (currentActive : Option String) (now : Nat) (actuatorOk : Bool)
    (r : AppRecord) : StepResult :=
  updateAppState cfg (currentActive = some package) now actuatorOk r

/-- SessionEntry: one element of a day record's "sessions" list
(start, end, duration in minutes). -/
structure SessionEntry where
  startTime : String
  endTime : String
  duration : Nat
deriving DecidableEq, Repr

/-- DayRecord: one per-app entry of config_manager's `db[today]`. -/
structure DayRecord where
  name : String
  total_minutes_used : Int
  limit_minutes : Nat
  remaining_minutes : Int
  sessions : List SessionEntry
  limit_reached : Bool
  blocked_at : Option String
deriving DecidableEq, Repr

/-- DayDB is the slice of config_manager's `self.db` for one date key
("today"): a partial map from package to its day record.  The ledger only
does point reads and point writes on it. -/
def DayDB : Type := String → Option DayRecord

/-- freshRecord is the zeroed day record config_manager builds for an app
(in add_app, update_app_usage and reset_app_timer): zero usage, remaining
= limit, no sessions, limit_reached cleared, blocked_at null. -/
def freshRecord (a : AppConfig) : DayRecord :=
  { name := a.name, total_minutes_used := 0, limit_minutes := a.limit_minutes,
    remaining_minutes := (a.limit_minutes : Int), sessions := [],
    limit_reached := false, blocked_at := none }

/-- CfgApps: the `config["apps"]` dict as an association list
(package ↦ AppConfig); Python dict keys are unique. -/
def CfgApps : Type := List (String × AppConfig)

/-- update_app_usage embeds ConfigManager.update_app_usage for today:
returns False when the package is not configured; otherwise creates the
day record if missing and then overwrites total_minutes_used with
`used_minutes` and remaining_minutes with
`max(0, limit_minutes - used_minutes)` (limit taken from the config). -/
def update_app_usage (apps : CfgApps) (db : DayDB) (package : String)
    (used_minutes : Int) : DayDB × Bool :=
  match apps.lookup package with
  | none => (db, false)
  | some a =>
      let rec0 :=
        match db package with
        | some r => r
        | none => freshRecord a
      let rec1 :=
        { rec0 with total_minutes_used := used_minutes,
                    remaining_minutes := max 0 ((a.limit_minutes : Int) - used_minutes) }
      (fun p => if p = package then some rec1 else db p, true)

/-- get_total_usage embeds ConfigManager.get_total_usage for today:
`day_data.get(package, {}).get("total_minutes_used", 0)`. -/
def get_total_usage (db : DayDB) (package : String) : Int :=
  match db package with
  | some r => r.total_minutes_used
  | none => 0

/-- reset_app_timer embeds ConfigManager.reset_app_timer for today:
returns False (db unchanged) when the package is not configured or is
disabled; otherwise supersedes the day record with a fresh zeroed one. -/
def reset_app_timer (apps : CfgApps) (db : DayDB) (package : String) :
    DayDB × Bool :=
  match apps.lookup package with
  | none => (db, false)
  | some a =>
      if a.enabled then
        (fun p => if p = package then some (freshRecord a) else db p, true)
      else
        (db, false)

/-- MonState: the AppMonitor in-memory tracking maps (merged, see the
header) next to the ledger slice for today. -/
structure MonState where
  tracked : List (String × AppRecord)
  db : DayDB

/-- zeroRecord is the in-memory zeroing done by AppMonitor.reset_app:
total seconds 0, session start None, state INACTIVE (the 5-minute-warning
flag is not touched by reset_app). -/
def zeroRecord (r : AppRecord) : AppRecord :=
  { state := TimerState.inactive, sessionStart := none, totalSeconds := 0,
    warningSent := r.warningSent }

/-- zeroKey maps the in-memory zeroing over the entry of one package,
leaving every other entry unchanged. -/
def zeroKey (package : String) (l : List (String × AppRecord)) :
    List (String × AppRecord) :=
  l.map (fun kv => if kv.1 = package then (kv.1, zeroRecord kv.2) else kv)

/-- reset_app embeds AppMonitor.reset_app: if the package has an
in-memory timer record (`package in self._app_total_seconds`) it zeroes
the in-memory record, calls config.reset_app_timer and returns True;
otherwise it returns False and changes nothing. -/
def reset_app (apps : CfgApps) (st : MonState) (package : String) :
    MonState × Bool :=
  if (st.tracked.lookup package).isSome then
    ({ tracked := zeroKey package st.tracked,
       db := (reset_app_timer apps st.db package).1 }, true)
  else
    (st, false)

/-- resetStep is one iteration of the reset_all loop body:
`if self.reset_app(package): count += 1`. -/
def resetStep (apps : CfgApps) (acc : MonState × Nat) (pkg : String) :
    MonState × Nat :=
  let res := reset_app apps acc.1 pkg
  (res.1, acc.2 + if res.2 then 1 else 0)

/-- reset_all embeds AppMonitor.reset_all: iterate over a snapshot of the
tracked packages (`list(self._app_total_seconds.keys())`), reset each,
and count the True returns. -/
def reset_all (apps : CfgApps) (st : MonState) : MonState × Nat :=
  (st.tracked.map Prod.fst).foldl (resetStep apps) (st, 0)

/-- get_app_used_time embeds AppMonitor.get_app_used_time:
`self._app_total_seconds.get(package, 0)`. -/
def get_app_used_time (tracked : List (String × AppRecord))
    (package : String) : Nat :=
  match tracked.lookup package with
  | some r => r.totalSeconds
  | none => 0

/-- get_app_used_minutes embeds AppMonitor.get_app_used_minutes:
seconds_to_minutes applied to get_app_used_time. -/
def get_app_used_minutes (tracked : List (String × AppRecord))
    (package : String) : Int :=
  secondsToMinutes (get_app_used_time tracked package)

/-- TickIn: the per-tick inputs of the sampling loop for a single
monitored app: the probe snapshot reduced to whether this app is the
active one, the tick timestamp, and the actuator oracle. -/
structure TickIn where
  now : Nat
  active : Bool
  actuatorOk : Bool
deriving DecidableEq, Repr

/-- loopTick is the state-machine part of one loop iteration for a single
monitored app. -/
def loopTick (cfg : AppConfig) (r : AppRecord) (t : TickIn) : AppRecord :=
  (updateAppState cfg t.active t.now t.actuatorOk r).record

/-- runTicks folds the tick over a list of tick inputs. -/
def runTicks (cfg : AppConfig) (r : AppRecord) (ts : List TickIn) : AppRecord :=
  ts.foldl (loopTick cfg) r

/-- warningsFired counts how many ticks of a run emit the 5-minute
warning notification. -/
def warningsFired (cfg : AppConfig) (r : AppRecord) : List TickIn → Nat
  | [] => 0
  | t :: ts =>
      (if (updateAppState cfg t.active t.now t.actuatorOk r).warningFired
       then 1 else 0) + warningsFired cfg (loopTick cfg r t) ts

/-- applyCycle applies one full background/foreground cycle to a record:
a tick at time `c.1` with the app not foregrounded (pause), then a tick
at time `c.2` with the app foregrounded again (resume). -/
def applyCycle (cfg : AppConfig) (r : AppRecord) (c : Nat × Nat) : AppRecord :=
  loopTick cfg
    (loopTick cfg r { now := c.1, active := false, actuatorOk := true })
    { now := c.2, active := true, actuatorOk := true }

/-- applyCycles folds a list of pause/resume cycles over a record. -/
def applyCycles (cfg : AppConfig) (r : AppRecord) (cs : List (Nat × Nat)) :
    AppRecord :=
  cs.foldl (applyCycle cfg) r

/-- chainOk s cs holds when the pause/resume timestamps are ordered:
s ≤ p ≤ q, chained through the cycles. -/
def chainOk : Nat → List (Nat × Nat) → Bool
  | _, [] => true
  | s, c :: cs => decide (s ≤ c.1) && decide (c.1 ≤ c.2) && chainOk c.2 cs

/-- cycleSum s cs is the total of the foreground session durations the
cycles flush: each pause tick flushes `p − s` where s is the session
start in force. -/
def cycleSum : Nat → List (Nat × Nat) → Nat
  | _, [] => 0
  | s, c :: cs => (c.1 - s) + cycleSum c.2 cs

/-- lastStart s cs is the session-start timestamp in force after the
cycles. -/
def lastStart : Nat → List (Nat × Nat) → Nat
  | s, [] => s
  | _, c :: cs => lastStart c.2 cs

/-- monitorLoop embeds the exception structure of AppMonitor._monitor_loop
for a single monitored app with the daily rollover not due: the `try`
wraps the whole `while self._running` loop, so an exception raised inside
a tick (modelled at the probe query, input `none`) is caught by the outer
handler, logged once, and the loop function returns — no further ticks
run.  Returns the final record and the number of ticks executed. -/
def monitorLoop (cfg : AppConfig) (r : AppRecord) :
    List (Option TickIn) → AppRecord × Nat
  | [] => (r, 0)
  | none :: _ => (r, 0)
  | some t :: rest =>
      let res := monitorLoop cfg (loopTick cfg r t) rest
      (res.1, res.2 + 1)

/-- monitorLoopSpecModel. Modelled from the spec: the spec's §4.2/§7
failure handling ("any exception raised while querying the probe or
computing state for one tick is caught, logged, and the loop continues to
the next tick") places the handler inside the loop body, so a raising
tick is skipped and every remaining tick still runs.  This definition
follows the spec's words, for comparison against `monitorLoop`. -/
def monitorLoopSpecModel (cfg : AppConfig) (r : AppRecord) :
    List (Option TickIn) → AppRecord × Nat
  | [] => (r, 0)
  | none :: rest => monitorLoopSpecModel cfg r rest
  | some t :: rest =>
      let res := monitorLoopSpecModel cfg (loopTick cfg r t) rest
      (res.1, res.2 + 1)

/-! Concrete fixtures used by counterexamples and witnesses. -/

def cfgA : AppConfig :=
  { name := "A", limit_minutes := 1, enabled := true,
    action := EnforceAction.kill }

def recBlocked : AppRecord :=
  { state := TimerState.blocked, sessionStart := none, totalSeconds := 60,
    warningSent := true }

def apps1 : CfgApps := [("com.x.y", cfgA)]

def dbEmpty : DayDB := fun _ => none

def recMon : AppRecord :=
  { state := TimerState.monitoring, sessionStart := some 50, totalSeconds := 120,
    warningSent := false }

def stW : MonState := { tracked := [("com.x.y", recMon)], db := dbEmpty }

def cfgDisabled : AppConfig :=
  { name := "D", limit_minutes := 10, enabled := false,
    action := EnforceAction.kill }

def appsC5 : CfgApps := [("com.d.app", cfgDisabled)]

def stC5 : MonState := { tracked := [("com.d.app", recMon)], db := dbEmpty }

def tickA : TickIn := { now := 10, active := true, actuatorOk := true }

def cfgC1 : AppConfig :=
  { name := "C", limit_minutes := 1, enabled := true,
    action := EnforceAction.kill }

def rC1 : AppRecord :=
  { state := TimerState.paused, sessionStart := none, totalSeconds := 60,
    warningSent := true }

def rC4 : AppRecord :=
  { state := TimerState.monitoring, sessionStart := some 100,
    totalSeconds := 60, warningSent := true }

def rC3 : AppRecord :=
  { state := TimerState.monitoring, sessionStart := some 100,
    totalSeconds := 30, warningSent := false }

/-! Helper lemmas and the claim theorems. -/

lemma tdiv_ofNat60 (m : Nat) : Int.tdiv (m : Int) 60 = ((m / 60 : Nat) : Int) := rfl

lemma tdiv_negSucc60 (m : Nat) :
    Int.tdiv (Int.negSucc m) 60 = -(((m + 1) / 60 : Nat) : Int) := rfl

/-- secondsToMinutes lands in the window (0, 5] exactly when the raw
remaining seconds land in [60, 359]. -/
lemma secondsToMinutes_window (L T : Nat) :
    (0 < secondsToMinutes ((L : Int) - (T : Int)) ∧
      secondsToMinutes ((L : Int) - (T : Int)) ≤ 5) ↔
    (T + 60 ≤ L ∧ L ≤ T + 359) := by
  unfold secondsToMinutes
  rcases le_or_lt T L with h | h
  · have hz : (L : Int) - (T : Int) = ((L - T : Nat) : Int) := by omega
    rw [hz, tdiv_ofNat60]
    omega
  · have hz : (L : Int) - (T : Int) = Int.negSucc (T - L - 1) := by
      rw [Int.negSucc_eq]; omega
    rw [hz, tdiv_negSucc60]
    omega

lemma warnCond_eq_true_iff (L : Nat) (r1 : AppRecord) :
    warnCond L r1 = true ↔
      (r1.totalSeconds + 60 ≤ L ∧ L ≤ r1.totalSeconds + 359 ∧
        r1.warningSent = false) := by
  unfold warnCond
  simp only [Bool.and_eq_true, decide_eq_true_eq, Bool.not_eq_true']
  constructor
  · rintro ⟨⟨h5, h0⟩, hw⟩
    have hh := (secondsToMinutes_window L r1.totalSeconds).1 ⟨h0, h5⟩
    exact ⟨hh.1, hh.2, hw⟩
  · rintro ⟨h1, h2, hw⟩
    have hh := (secondsToMinutes_window L r1.totalSeconds).2 ⟨h1, h2⟩
    exact ⟨⟨hh.2, hh.1⟩, hw⟩

lemma activeAdvance_warningSent (now : Nat) (r : AppRecord) :
    (activeAdvance now r).warningSent = r.warningSent := by
  obtain ⟨st, ss, tot, w⟩ := r
  cases st <;> simp [activeAdvance] <;> cases ss <;> simp <;> split <;> simp

lemma activeAdvance_total_ge (now : Nat) (r : AppRecord) :
    r.totalSeconds ≤ (activeAdvance now r).totalSeconds := by
  obtain ⟨st, ss, tot, w⟩ := r
  cases st <;> simp [activeAdvance]
  cases ss <;> simp
  split <;> simp

lemma activeAdvance_blocked (now : Nat) (r : AppRecord)
    (h : r.state = TimerState.blocked) : activeAdvance now r = r := by
  obtain ⟨st, ss, tot, w⟩ := r
  cases st <;> simp_all [activeAdvance]

lemma activeAdvance_state (now : Nat) (r : AppRecord)
    (h : r.state ≠ TimerState.blocked) :
    (activeAdvance now r).state = TimerState.monitoring := by
  obtain ⟨st, ss, tot, w⟩ := r
  cases st <;> simp_all [activeAdvance]
  cases ss <;> simp
  split <;> simp

lemma setWarn_state (b : Bool) (r1 : AppRecord) :
    (if b = true then { r1 with warningSent := true } else r1).state = r1.state := by
  cases b <;> simp

lemma setWarn_total (b : Bool) (r1 : AppRecord) :
    (if b = true then { r1 with warningSent := true } else r1).totalSeconds
      = r1.totalSeconds := by
  cases b <;> simp

lemma setWarn_sessionStart (b : Bool) (r1 : AppRecord) :
    (if b = true then { r1 with warningSent := true } else r1).sessionStart
      = r1.sessionStart := by
  cases b <;> simp

lemma enforceLimit_of_blocked (ok : Bool) (r : AppRecord)
    (h : r.state = TimerState.blocked) :
    enforceLimit ok r =
      { record := r, marked := false, notified := false, actuatorCalled := false } := by
  simp [enforceLimit, h]

lemma enforceLimit_of_not_blocked (ok : Bool) (r : AppRecord)
    (h : r.state ≠ TimerState.blocked) :
    enforceLimit ok r =
      { record := if ok then { r with state := TimerState.blocked } else r,
        marked := true, notified := true, actuatorCalled := true } := by
  simp [enforceLimit, h]

lemma enforceLimit_warningSent (ok : Bool) (r : AppRecord) :
    (enforceLimit ok r).record.warningSent = r.warningSent := by
  unfold enforceLimit
  split
  · rfl
  · cases ok <;> simp

lemma enforceLimit_totalSeconds (ok : Bool) (r : AppRecord) :
    (enforceLimit ok r).record.totalSeconds = r.totalSeconds := by
  unfold enforceLimit
  split
  · rfl
  · cases ok <;> simp

/-- C7: BLOCKED is absorbing under the sampling tick: whatever the
foreground snapshot, tick time and actuator result, a BLOCKED record
stays BLOCKED and its accumulated seconds do not change; the tick never
leaves BLOCKED (that takes reset_app or the daily reset). -/
theorem C7_blocked_absorbing (cfg : AppConfig) (isActive : Bool) (now : Nat)
    (actuatorOk : Bool) (r : AppRecord) (h : r.state = TimerState.blocked) :
    (updateAppState cfg isActive now actuatorOk r).record.state = TimerState.blocked ∧
    (updateAppState cfg isActive now actuatorOk r).record.totalSeconds
      = r.totalSeconds := by
  obtain ⟨st, ss, tot, w⟩ := r
  simp only [AppRecord.state] at h
  subst h
  by_cases he : cfg.enabled = false
  · simp [updateAppState, he, noEvents]
  · rw [Bool.not_eq_false] at he
    cases isActive
    · simp [updateAppState, he, noEvents]
    · simp only [updateAppState, he, Bool.true_eq_false, if_false, if_true,
        activeAdvance]
      cases hw : warnCond (cfg.limit_minutes * 60)
          { state := TimerState.blocked, sessionStart := ss, totalSeconds := tot,
            warningSent := w } <;>
        simp [hw, enforceLimit, noEvents] <;> split <;> simp

/-- C7 witness at a concrete blocked record. -/
theorem C7_blocked_absorbing_witness :
    recBlocked.state = TimerState.blocked ∧
    ((updateAppState cfgA true 100 true recBlocked).record.state
        = TimerState.blocked ∧
      (updateAppState cfgA true 100 true recBlocked).record.totalSeconds
        = recBlocked.totalSeconds) :=
  ⟨by decide, C7_blocked_absorbing cfgA true 100 true recBlocked (by decide)⟩

/-- C9: get_app_used_time falls back to 0 for a package that has never
been tracked, and get_app_used_minutes is its whole-minute truncation
(floor division by 60 on these non-negative counts). -/
theorem C9_used_time_getters (tracked : List (String × AppRecord))
    (package : String) :
    (tracked.lookup package = none → get_app_used_time tracked package = 0) ∧
    get_app_used_minutes tracked package
      = ((get_app_used_time tracked package / 60 : Nat) : Int) := by
  constructor
  · intro h
    simp [get_app_used_time, h]
  · rw [get_app_used_minutes, secondsToMinutes, tdiv_ofNat60]

/-- C9 witness: an untracked package reads as 0 seconds, and a tracked
one as its floor minutes. -/
theorem C9_used_time_getters_witness :
    get_app_used_time [] "com.x.y" = 0 ∧
    get_app_used_minutes [("com.x.y", recBlocked)] "com.x.y"
      = ((get_app_used_time [("com.x.y", recBlocked)] "com.x.y" / 60 : Nat) : Int) :=
  ⟨(C9_used_time_getters [] "com.x.y").1 rfl,
    (C9_used_time_getters [("com.x.y", recBlocked)] "com.x.y").2⟩

/-- C8: for a configured package, update_app_usage succeeds, overwrites
the stored daily total with exactly the given minutes (whatever was
stored before), an immediately following get_total_usage reads that
value back, and the stored remaining minutes are
max(0, limit_minutes - minutes). -/
theorem C8_update_usage_overwrite (apps : CfgApps) (db : DayDB)
    (package : String) (m : Int) (a : AppConfig)
    (h : apps.lookup package = some a) :
    (update_app_usage apps db package m).2 = true ∧
    get_total_usage (update_app_usage apps db package m).1 package = m ∧
    ((update_app_usage apps db package m).1 package).map DayRecord.remaining_minutes
      = some (max 0 ((a.limit_minutes : Int) - m)) := by
  cases hdb : db package <;>
    simp [update_app_usage, h, hdb, get_total_usage]

/-- C8 witness at a concrete configuration and an empty day ledger. -/
theorem C8_update_usage_overwrite_witness :
    apps1.lookup "com.x.y" = some cfgA ∧
    ((update_app_usage apps1 dbEmpty "com.x.y" 7).2 = true ∧
      get_total_usage (update_app_usage apps1 dbEmpty "com.x.y" 7).1 "com.x.y" = 7 ∧
      ((update_app_usage apps1 dbEmpty "com.x.y" 7).1 "com.x.y").map
          DayRecord.remaining_minutes
        = some (max 0 ((cfgA.limit_minutes : Int) - 7))) :=
  ⟨by decide, C8_update_usage_overwrite apps1 dbEmpty "com.x.y" 7 cfgA (by decide)⟩

lemma zeroKey_cons (k k1 : String) (v1 : AppRecord)
    (tl : List (String × AppRecord)) :
    zeroKey k ((k1, v1) :: tl) =
      (if k1 = k then (k1, zeroRecord v1) else (k1, v1)) :: zeroKey k tl := by
  simp only [zeroKey, List.map_cons]

lemma lookup_zeroKey_self (k : String) (l : List (String × AppRecord)) :
    (zeroKey k l).lookup k = (l.lookup k).map zeroRecord := by
  induction l with
  | nil => simp [zeroKey]
  | cons kv tl ih =>
      obtain ⟨k1, v1⟩ := kv
      rw [zeroKey_cons]
      by_cases hk : k1 = k
      · subst hk
        simp [List.lookup_cons]
      · have hb : (k == k1) = false := beq_false_of_ne (Ne.symm hk)
        simp [List.lookup_cons, hk, hb, ih]

lemma lookup_zeroKey_other (k p : String) (l : List (String × AppRecord))
    (hne : p ≠ k) :
    (zeroKey k l).lookup p = l.lookup p := by
  induction l with
  | nil => simp [zeroKey]
  | cons kv tl ih =>
      obtain ⟨k1, v1⟩ := kv
      rw [zeroKey_cons]
      by_cases hk : k1 = k
      · subst hk
        have hb : (p == k1) = false := beq_false_of_ne hne
        simp [List.lookup_cons, hb, ih]
      · by_cases hp : p = k1
        · subst hp
          simp [List.lookup_cons, hk]
        · have hb : (p == k1) = false := beq_false_of_ne hp
          simp [List.lookup_cons, hk, hb, ih]

/-- C10: reset_app returns True exactly when the package has an in-memory
timer record; when it returns False the whole monitor state (in-memory
maps and ledger) is unchanged; when it returns True the package's
in-memory record is zeroed: accumulated seconds 0, session start cleared,
state INACTIVE (the daily warning flag is left as it was). -/
theorem C10_reset_app (apps : CfgApps) (st : MonState) (package : String) :
    ((reset_app apps st package).2 = true ↔
      (st.tracked.lookup package).isSome = true) ∧
    ((reset_app apps st package).2 = false →
      reset_app apps st package = (st, false)) ∧
    (∀ r, st.tracked.lookup package = some r →
      (reset_app apps st package).1.tracked.lookup package
        = some (zeroRecord r)) := by
  refine ⟨?_, ?_, ?_⟩
  · unfold reset_app
    split <;> simp_all
  · unfold reset_app
    split <;> simp_all
  · intro r hr
    have hs : (st.tracked.lookup package).isSome = true := by simp [hr]
    unfold reset_app
    rw [if_pos hs]
    simp [lookup_zeroKey_self, hr]

/-- C10 witness at a concrete one-app monitor state. -/
theorem C10_reset_app_witness :
    ((reset_app apps1 stW "com.x.y").2 = true ↔
      (stW.tracked.lookup "com.x.y").isSome = true) ∧
    (reset_app apps1 stW "com.x.y").1.tracked.lookup "com.x.y"
      = some (zeroRecord recMon) :=
  ⟨(C10_reset_app apps1 stW "com.x.y").1,
    (C10_reset_app apps1 stW "com.x.y").2.2 recMon (by decide)⟩

lemma lookup_isSome_iff_mem_keys (l : List (String × AppRecord)) (p : String) :
    (l.lookup p).isSome = true ↔ p ∈ l.map Prod.fst := by
  induction l with
  | nil => simp
  | cons kv tl ih =>
      obtain ⟨k1, v1⟩ := kv
      by_cases hp : p = k1
      · subst hp
        simp [List.lookup_cons]
      · have hb : (p == k1) = false := beq_false_of_ne hp
        simp [List.lookup_cons, hb, hp, ih]

lemma zeroKey_keys (k : String) (l : List (String × AppRecord)) :
    (zeroKey k l).map Prod.fst = l.map Prod.fst := by
  induction l with
  | nil => rfl
  | cons kv tl ih =>
      obtain ⟨k1, v1⟩ := kv
      rw [zeroKey_cons]
      split <;> simp [ih]

lemma reset_app_timer_other (apps : CfgApps) (db : DayDB) (package p : String)
    (hne : p ≠ package) : (reset_app_timer apps db package).1 p = db p := by
  unfold reset_app_timer
  cases h : apps.lookup package with
  | none => rfl
  | some a =>
      by_cases he : a.enabled <;> simp [he, hne]

lemma reset_app_timer_self (apps : CfgApps) (db : DayDB) (package : String)
    (a : AppConfig) (h : apps.lookup package = some a) :
    (reset_app_timer apps db package).1 package =
      (if a.enabled then some (freshRecord a) else db package) := by
  unfold reset_app_timer
  rw [h]
  by_cases he : a.enabled <;> simp [he]

lemma lookup_zeroKey_isSome (k p : String) (l : List (String × AppRecord)) :
    ((zeroKey k l).lookup p).isSome = (l.lookup p).isSome := by
  by_cases hp : p = k
  · subst hp
    rw [lookup_zeroKey_self]
    cases l.lookup p <;> rfl
  · rw [lookup_zeroKey_other _ _ _ hp]

lemma reset_app_timer_none (apps : CfgApps) (db : DayDB) (package : String)
    (h : apps.lookup package = none) :
    (reset_app_timer apps db package).1 = db := by
  unfold reset_app_timer
  rw [h]

lemma reset_fold_spec (apps : CfgApps) :
    ∀ (ks : List String) (st : MonState) (c : Nat),
      (∀ k ∈ ks, (st.tracked.lookup k).isSome = true) → ks.Nodup →
      ((ks.foldl (resetStep apps) (st, c)).2 = c + ks.length ∧
       (∀ p, p ∉ ks →
          (ks.foldl (resetStep apps) (st, c)).1.tracked.lookup p
            = st.tracked.lookup p ∧
          (ks.foldl (resetStep apps) (st, c)).1.db p = st.db p) ∧
       (∀ p, p ∈ ks →
          (ks.foldl (resetStep apps) (st, c)).1.tracked.lookup p
            = (st.tracked.lookup p).map zeroRecord) ∧
       (∀ p a, p ∈ ks → apps.lookup p = some a →
          (ks.foldl (resetStep apps) (st, c)).1.db p
            = (if a.enabled then some (freshRecord a) else st.db p)) ∧
       (∀ p, p ∈ ks → apps.lookup p = none →
          (ks.foldl (resetStep apps) (st, c)).1.db p = st.db p)) := by
  intro ks
  induction ks with
  | nil =>
      intro st c _ _
      simp
  | cons k tl ih =>
      intro st c hpres hnd
      rw [List.nodup_cons] at hnd
      have hk : (st.tracked.lookup k).isSome = true :=
        hpres k (List.mem_cons_self _ _)
      have hstep : resetStep apps (st, c) k =
          ({ tracked := zeroKey k st.tracked,
             db := (reset_app_timer apps st.db k).1 }, c + 1) := by
        simp [resetStep, reset_app, hk]
      rw [List.foldl_cons, hstep]
      have hpres1 : ∀ k2 ∈ tl,
          (((⟨zeroKey k st.tracked,
              (reset_app_timer apps st.db k).1⟩ : MonState)).tracked.lookup k2).isSome
            = true := by
        intro k2 hk2
        show ((zeroKey k st.tracked).lookup k2).isSome = true
        rw [lookup_zeroKey_isSome]
        exact hpres k2 (List.mem_cons_of_mem _ hk2)
      obtain ⟨Hcount, Hout, Hin, Hdb, Hdbn⟩ :=
        ih ⟨zeroKey k st.tracked, (reset_app_timer apps st.db k).1⟩ (c + 1)
          hpres1 hnd.2
      refine ⟨?_, ?_, ?_, ?_, ?_⟩
      · rw [Hcount]
        simp
        omega
      · intro p hp
        have hpk : p ≠ k := fun hc => hp (hc ▸ List.mem_cons_self _ _)
        have hptl : p ∉ tl := fun hc => hp (List.mem_cons_of_mem _ hc)
        obtain ⟨h1, h2⟩ := Hout p hptl
        refine ⟨?_, ?_⟩
        · rw [h1]
          exact lookup_zeroKey_other _ _ _ hpk
        · rw [h2]
          exact reset_app_timer_other _ _ _ _ hpk
      · intro p hp
        rcases List.mem_cons.1 hp with hpk | hptl
        · subst hpk
          obtain ⟨h1, _⟩ := Hout p hnd.1
          rw [h1]
          exact lookup_zeroKey_self _ _
        · have hpk : p ≠ k := fun hc => hnd.1 (hc ▸ hptl)
          rw [Hin p hptl]
          rw [lookup_zeroKey_other _ _ _ hpk]
      · intro p a hp ha
        rcases List.mem_cons.1 hp with hpk | hptl
        · subst hpk
          obtain ⟨_, h2⟩ := Hout p hnd.1
          rw [h2]
          exact reset_app_timer_self _ _ _ _ ha
        · have hpk : p ≠ k := fun hc => hnd.1 (hc ▸ hptl)
          have hdbp : (MonState.mk (zeroKey k st.tracked)
                ((reset_app_timer apps st.db k).1)).db p
              = st.db p := reset_app_timer_other _ _ _ _ hpk
          rw [Hdb p a hptl ha, hdbp]
      · intro p hp ha
        rcases List.mem_cons.1 hp with hpk | hptl
        · subst hpk
          obtain ⟨_, h2⟩ := Hout p hnd.1
          rw [h2]
          rw [reset_app_timer_none _ _ _ ha]
        · have hpk : p ≠ k := fun hc => hnd.1 (hc ▸ hptl)
          rw [Hdbn p hptl ha]
          exact reset_app_timer_other _ _ _ _ hpk

/-- C5 counterexample: with a single configured application that is
disabled but tracked in memory, reset_all returns 1 although the number
of enabled applications is 0, and it does touch the disabled
application: its in-memory record is changed (zeroed). -/
theorem C5_counterexample :
    (appsC5.filter (fun kv => kv.2.enabled)).length = 0 ∧
    (reset_all appsC5 stC5).2 = 1 ∧
    (reset_all appsC5 stC5).1.tracked.lookup "com.d.app"
      ≠ stC5.tracked.lookup "com.d.app" := by
  refine ⟨by decide, by decide, by decide⟩

/-- C5 amended: reset_all zeroes the in-memory timer record (accumulated
seconds 0, session start cleared, state INACTIVE) of every application
that has an in-memory record — disabled ones included — and returns the
number of tracked applications, not the number of enabled ones; the
ledger record is superseded with a fresh zeroed record only for tracked
applications that are configured and enabled, and is untouched for
disabled, unconfigured or untracked applications. -/
theorem C5_amended_reset_all (apps : CfgApps) (st : MonState)
    (hnd : (st.tracked.map Prod.fst).Nodup) :
    (reset_all apps st).2 = st.tracked.length ∧
    (∀ p r, st.tracked.lookup p = some r →
      (reset_all apps st).1.tracked.lookup p = some (zeroRecord r)) ∧
    (∀ p, st.tracked.lookup p = none →
      (reset_all apps st).1.tracked.lookup p = none ∧
      (reset_all apps st).1.db p = st.db p) ∧
    (∀ p a r, st.tracked.lookup p = some r → apps.lookup p = some a →
      (reset_all apps st).1.db p
        = (if a.enabled then some (freshRecord a) else st.db p)) ∧
    (∀ p r, st.tracked.lookup p = some r → apps.lookup p = none →
      (reset_all apps st).1.db p = st.db p) := by
  obtain ⟨Hcount, Hout, Hin, Hdb, Hdbn⟩ :=
    reset_fold_spec apps (st.tracked.map Prod.fst) st 0
      (fun k hk => (lookup_isSome_iff_mem_keys _ _).2 hk) hnd
  refine ⟨?_, ?_, ?_, ?_, ?_⟩
  · rw [reset_all, Hcount]
    simp
  · intro p r hr
    have hmem : p ∈ st.tracked.map Prod.fst :=
      (lookup_isSome_iff_mem_keys _ _).1 (by simp [hr])
    rw [reset_all, Hin p hmem, hr]
    rfl
  · intro p hp
    have hmem : p ∉ st.tracked.map Prod.fst := by
      intro hc
      have := (lookup_isSome_iff_mem_keys _ _).2 hc
      rw [hp] at this
      cases this
    obtain ⟨h1, h2⟩ := Hout p hmem
    rw [reset_all, h1, h2, hp]
    exact ⟨rfl, rfl⟩
  · intro p a r hr ha
    have hmem : p ∈ st.tracked.map Prod.fst :=
      (lookup_isSome_iff_mem_keys _ _).1 (by simp [hr])
    rw [reset_all, Hdb p a hmem ha]
  · intro p r hr ha
    have hmem : p ∈ st.tracked.map Prod.fst :=
      (lookup_isSome_iff_mem_keys _ _).1 (by simp [hr])
    rw [reset_all, Hdbn p hmem ha]

/-- C5 amended witness at a concrete tracked single-app state. -/
theorem C5_amended_reset_all_witness :
    (stW.tracked.map Prod.fst).Nodup ∧
    (reset_all apps1 stW).2 = stW.tracked.length ∧
    (reset_all apps1 stW).1.tracked.lookup "com.x.y"
      = some (zeroRecord recMon) :=
  ⟨by decide, (C5_amended_reset_all apps1 stW (by decide)).1,
    (C5_amended_reset_all apps1 stW (by decide)).2.1 "com.x.y" recMon (by decide)⟩

/-- C2 counterexample: with an exception raised in the first tick and a
normal tick still pending, the code loop executes no further tick (the
handler wraps the whole while loop, which exits), while the spec-modelled
per-tick handler would continue and execute the remaining tick. -/
theorem C2_counterexample :
    (monitorLoop cfgA recMon [none, some tickA]).2 = 0 ∧
    (monitorLoopSpecModel cfgA recMon [none, some tickA]).2 = 1 := by
  refine ⟨by decide, by decide⟩

/-- C2 amended: an exception inside a tick does not propagate out of the
loop function (the subsystem does not crash), but it terminates the
monitoring loop rather than letting it continue: the loop performs
exactly the ticks of the longest exception-free prefix of the schedule
and nothing after the first exception, until restarted. -/
theorem C2_amended_loop_stops (cfg : AppConfig) (r : AppRecord)
    (inputs : List (Option TickIn)) :
    monitorLoop cfg r inputs
      = (runTicks cfg r ((inputs.takeWhile Option.isSome).filterMap id),
         (inputs.takeWhile Option.isSome).length) := by
  induction inputs generalizing r with
  | nil => simp [monitorLoop, runTicks]
  | cons hd tl ih =>
      cases hd with
      | none => simp [monitorLoop, List.takeWhile_cons, runTicks]
      | some t =>
          rw [monitorLoop, ih]
          simp [List.takeWhile_cons, runTicks]

/-- C1 counterexample: an enabled app, PAUSED, with accumulated seconds
already at limit_minutes*60, on a tick where it is not foregrounded: the
tick leaves it PAUSED and never invokes the Enforcement Dispatcher — the
limit check runs only in the foregrounded branch, so "from whatever state
it is in, foregrounded or not" fails. -/
theorem C1_counterexample :
    cfgC1.enabled = true ∧
    cfgC1.limit_minutes * 60 ≤ rC1.totalSeconds ∧
    rC1.state = TimerState.paused ∧
    (updateAppState cfgC1 false 100 true rC1).record.state = TimerState.paused ∧
    (updateAppState cfgC1 false 100 true rC1).enforceInvoked = false := by
  refine ⟨by decide, by decide, by decide, by decide, by decide⟩

/-- C1 amended: for an enabled app whose accumulated seconds have reached
limit_minutes*60, on every tick on which the app IS foregrounded the
enforcement path is invoked; from a non-BLOCKED state the dispatcher
marks the ledger, notifies, calls the actuator, and the app lands in
BLOCKED exactly when the actuator succeeds; from BLOCKED the guard makes
the dispatcher a no-op, so its actions run at most once per transition
into BLOCKED.  Ticks on which the app is not foregrounded do not enforce
(see the counterexample). -/
theorem C1_amended_enforcement (cfg : AppConfig) (now : Nat) (ok : Bool)
    (r : AppRecord) (he : cfg.enabled = true)
    (hover : cfg.limit_minutes * 60 ≤ r.totalSeconds) :
    (updateAppState cfg true now ok r).enforceInvoked = true ∧
    (r.state ≠ TimerState.blocked →
      ((updateAppState cfg true now ok r).record.state = TimerState.blocked
          ↔ ok = true) ∧
      (updateAppState cfg true now ok r).markedLimit = true ∧
      (updateAppState cfg true now ok r).limitNotified = true ∧
      (updateAppState cfg true now ok r).actuatorCalled = true) ∧
    (r.state = TimerState.blocked →
      (updateAppState cfg true now ok r).markedLimit = false ∧
      (updateAppState cfg true now ok r).limitNotified = false ∧
      (updateAppState cfg true now ok r).actuatorCalled = false) := by
  have hlim : cfg.limit_minutes * 60 ≤ (activeAdvance now r).totalSeconds :=
    le_trans hover (activeAdvance_total_ge now r)
  by_cases hb : r.state = TimerState.blocked
  · have hadv : activeAdvance now r = r := activeAdvance_blocked now r hb
    rw [hadv] at hlim
    cases hwb : warnCond (cfg.limit_minutes * 60) r <;>
      simp [updateAppState, he, hwb, hadv, hlim, hover, enforceLimit, hb]
  · have hst : (activeAdvance now r).state = TimerState.monitoring :=
      activeAdvance_state now r hb
    cases hwb : warnCond (cfg.limit_minutes * 60) (activeAdvance now r) <;>
      cases ok <;>
        simp [updateAppState, he, hwb, hlim, enforceLimit, hst, hb]

/-- C4 counterexample: limit reached and the actuator fails on the first
tick: the "limit reached" notification is sent on that tick, the app is
NOT yet BLOCKED, and on the next (retry) tick the notification is sent
again before the actuator succeeds — so it is re-sent on retry ticks,
not sent exactly once per transition into BLOCKED. -/
theorem C4_counterexample :
    (updateAppState cfgC1 true 100 false rC4).limitNotified = true ∧
    (updateAppState cfgC1 true 100 false rC4).record.state
      ≠ TimerState.blocked ∧
    (updateAppState cfgC1 true 110 true
        (updateAppState cfgC1 true 100 false rC4).record).limitNotified = true ∧
    (updateAppState cfgC1 true 110 true
        (updateAppState cfgC1 true 100 false rC4).record).record.state
      = TimerState.blocked := by
  refine ⟨by decide, by decide, by decide, by decide⟩

/-- C4 amended: once the limit is reached, on every tick on which the app
is foregrounded and not yet BLOCKED the dispatcher runs in full: the
actuator is called (retried), the app is marked BLOCKED exactly when the
actuator reports success (on failure it stays in MONITORING and the call
is retried on the next foregrounded tick) — but the ledger mark and the
"limit reached" notification are also repeated on every such retry tick,
rather than being sent exactly once per day. -/
theorem C4_amended_retry (cfg : AppConfig) (now : Nat) (ok : Bool)
    (r : AppRecord) (he : cfg.enabled = true)
    (hnb : r.state ≠ TimerState.blocked)
    (hover : cfg.limit_minutes * 60 ≤ r.totalSeconds) :
    (updateAppState cfg true now ok r).actuatorCalled = true ∧
    (updateAppState cfg true now ok r).limitNotified = true ∧
    (updateAppState cfg true now ok r).markedLimit = true ∧
    ((updateAppState cfg true now ok r).record.state = TimerState.blocked
        ↔ ok = true) ∧
    (ok = false →
      (updateAppState cfg true now ok r).record.state
        = TimerState.monitoring) := by
  have hlim : cfg.limit_minutes * 60 ≤ (activeAdvance now r).totalSeconds :=
    le_trans hover (activeAdvance_total_ge now r)
  have hst : (activeAdvance now r).state = TimerState.monitoring :=
    activeAdvance_state now r hnb
  cases hwb : warnCond (cfg.limit_minutes * 60) (activeAdvance now r) <;>
    cases ok <;>
      simp [updateAppState, he, hwb, hlim, enforceLimit, hst]

lemma pauseFlush_warningSent (now : Nat) (r : AppRecord) :
    (pauseFlush now r).warningSent = r.warningSent := by
  obtain ⟨st, ss, tot, w⟩ := r
  cases ss <;> simp [pauseFlush]
  split <;> rfl

lemma updateAppState_warningFired_iff (cfg : AppConfig) (isActive : Bool)
    (now : Nat) (ok : Bool) (r : AppRecord) :
    (updateAppState cfg isActive now ok r).warningFired = true ↔
      (cfg.enabled = true ∧ isActive = true ∧ r.warningSent = false ∧
        (activeAdvance now r).totalSeconds + 60 ≤ cfg.limit_minutes * 60 ∧
        cfg.limit_minutes * 60 ≤ (activeAdvance now r).totalSeconds + 359) := by
  by_cases he : cfg.enabled = false
  · simp [updateAppState, he, noEvents]
  · rw [Bool.not_eq_false] at he
    cases isActive
    · by_cases hst : r.state = TimerState.monitoring <;>
        simp [updateAppState, he, hst, noEvents]
    · have hfw : (updateAppState cfg true now ok r).warningFired
          = warnCond (cfg.limit_minutes * 60) (activeAdvance now r) := by
        simp only [updateAppState, he]
        simp
        split <;> split <;> rfl
      rw [hfw, warnCond_eq_true_iff, activeAdvance_warningSent]
      constructor
      · rintro ⟨h1, h2, h3⟩
        exact ⟨he, rfl, h3, h1, h2⟩
      · rintro ⟨_, _, h3, h1, h2⟩
        exact ⟨h1, h2, h3⟩

lemma warnCond_false_of_sent (L : Nat) (r1 : AppRecord)
    (h : r1.warningSent = true) : warnCond L r1 = false := by
  simp [warnCond, h]

lemma tick_warningSent_mono (cfg : AppConfig) (t : TickIn) (r : AppRecord)
    (h : r.warningSent = true) : (loopTick cfg r t).warningSent = true := by
  unfold loopTick
  by_cases he : cfg.enabled = false
  · simp [updateAppState, he, noEvents, h]
  · rw [Bool.not_eq_false] at he
    cases hact : t.active
    · by_cases hst : r.state = TimerState.monitoring <;>
        simp [updateAppState, he, hst, noEvents, pauseFlush_warningSent, h]
    · have hw1 : (activeAdvance t.now r).warningSent = true := by
        rw [activeAdvance_warningSent]; exact h
      have hwc : warnCond (cfg.limit_minutes * 60) (activeAdvance t.now r)
          = false := warnCond_false_of_sent _ _ hw1
      simp [updateAppState, he, hwc]
      split
      · rw [enforceLimit_warningSent]
        exact hw1
      · exact hw1

lemma tick_fired_sets (cfg : AppConfig) (t : TickIn) (r : AppRecord)
    (h : (updateAppState cfg t.active t.now t.actuatorOk r).warningFired
      = true) :
    (loopTick cfg r t).warningSent = true := by
  obtain ⟨he, hact, hws, h1, h2⟩ :=
    (updateAppState_warningFired_iff cfg t.active t.now t.actuatorOk r).1 h
  have hwc : warnCond (cfg.limit_minutes * 60) (activeAdvance t.now r)
      = true := by
    rw [warnCond_eq_true_iff]
    exact ⟨h1, h2, by rw [activeAdvance_warningSent]; exact hws⟩
  unfold loopTick
  rw [hact]
  simp [updateAppState, he, hwc]
  split
  · rw [enforceLimit_warningSent]
  · rfl

lemma warningsFired_zero_of_sent (cfg : AppConfig) (ts : List TickIn) :
    ∀ r : AppRecord, r.warningSent = true → warningsFired cfg r ts = 0 := by
  induction ts with
  | nil => intro r _; rfl
  | cons t ts ih =>
      intro r h
      rw [warningsFired]
      have hf : (updateAppState cfg t.active t.now t.actuatorOk r).warningFired
          = false := by
        cases hfb : (updateAppState cfg t.active t.now t.actuatorOk r).warningFired
        · rfl
        · obtain ⟨_, _, hws, _, _⟩ :=
            (updateAppState_warningFired_iff cfg t.active t.now t.actuatorOk r).1 hfb
          rw [h] at hws
          cases hws
      rw [hf]
      simp [ih (loopTick cfg r t) (tick_warningSent_mono cfg t r h)]

lemma warningsFired_le_one (cfg : AppConfig) (ts : List TickIn) :
    ∀ r : AppRecord, warningsFired cfg r ts ≤ 1 := by
  induction ts with
  | nil =>
      intro r
      simp [warningsFired]
  | cons t ts ih =>
      intro r
      rw [warningsFired]
      cases hf : (updateAppState cfg t.active t.now t.actuatorOk r).warningFired
      · simpa using ih (loopTick cfg r t)
      · rw [warningsFired_zero_of_sent cfg ts (loopTick cfg r t)
          (tick_fired_sets cfg t r hf)]
        simp

/-- C3 counterexample: enabled app, MONITORING, warning not yet sent
today, remaining time 30 seconds — inside the claimed (0, 300] window —
yet the tick emits no warning: the code windows on whole truncated
minutes, and int(30/60) = 0 fails its `remaining_minutes > 0` guard. -/
theorem C3_counterexample :
    cfgC1.enabled = true ∧
    rC3.state = TimerState.monitoring ∧
    rC3.warningSent = false ∧
    (0 : Int) < (cfgC1.limit_minutes * 60 : Int) - (rC3.totalSeconds : Int) ∧
    (cfgC1.limit_minutes * 60 : Int) - (rC3.totalSeconds : Int) ≤ 300 ∧
    (updateAppState cfgC1 true 100 true rC3).record.totalSeconds
      = rC3.totalSeconds ∧
    (updateAppState cfgC1 true 100 true rC3).warningFired = false := by
  refine ⟨by decide, by decide, by decide, by decide, by decide, by decide,
    by decide⟩

/-- C3 amended: the warning fires on a tick exactly when the app is
enabled and foregrounded, no warning was sent yet for it today, and the
post-accrual remaining seconds limit*60 − accumulated lie in [60, 359]
(whole truncated minutes in [1, 5]) — not in (0, 300]; and along any run
of ticks within a day the warning fires at most once (the flag is set on
emission and only the daily reset clears it). -/
theorem C3_amended_warning_window (cfg : AppConfig) (isActive : Bool)
    (now : Nat) (ok : Bool) (r : AppRecord) (ts : List TickIn) :
    ((updateAppState cfg isActive now ok r).warningFired = true ↔
      (cfg.enabled = true ∧ isActive = true ∧ r.warningSent = false ∧
        (activeAdvance now r).totalSeconds + 60 ≤ cfg.limit_minutes * 60 ∧
        cfg.limit_minutes * 60 ≤ (activeAdvance now r).totalSeconds + 359)) ∧
    warningsFired cfg r ts ≤ 1 :=
  ⟨updateAppState_warningFired_iff cfg isActive now ok r,
    warningsFired_le_one cfg ts r⟩

/-- C3 amended witness: the theorem instantiated at a concrete record
with remaining 30 seconds and a one-tick run. -/
theorem C3_amended_warning_window_witness :
    ((updateAppState cfgC1 true 100 true rC3).warningFired = true ↔
      (cfgC1.enabled = true ∧ true = true ∧ rC3.warningSent = false ∧
        (activeAdvance 100 rC3).totalSeconds + 60 ≤ cfgC1.limit_minutes * 60 ∧
        cfgC1.limit_minutes * 60 ≤ (activeAdvance 100 rC3).totalSeconds + 359)) ∧
    warningsFired cfgC1 rC3 [tickA] ≤ 1 :=
  C3_amended_warning_window cfgC1 true 100 true rC3 [tickA]

/-- C1 amended witness at a concrete over-limit monitoring record. -/
theorem C1_amended_enforcement_witness :
    cfgC1.enabled = true ∧
    cfgC1.limit_minutes * 60 ≤ rC4.totalSeconds ∧
    ((updateAppState cfgC1 true 100 true rC4).enforceInvoked = true ∧
      (rC4.state ≠ TimerState.blocked →
        ((updateAppState cfgC1 true 100 true rC4).record.state
            = TimerState.blocked ↔ true = true) ∧
        (updateAppState cfgC1 true 100 true rC4).markedLimit = true ∧
        (updateAppState cfgC1 true 100 true rC4).limitNotified = true ∧
        (updateAppState cfgC1 true 100 true rC4).actuatorCalled = true) ∧
      (rC4.state = TimerState.blocked →
        (updateAppState cfgC1 true 100 true rC4).markedLimit = false ∧
        (updateAppState cfgC1 true 100 true rC4).limitNotified = false ∧
        (updateAppState cfgC1 true 100 true rC4).actuatorCalled = false)) :=
  ⟨by decide, by decide,
    C1_amended_enforcement cfgC1 100 true rC4 (by decide) (by decide)⟩

/-- C4 amended witness at a concrete over-limit record with a failing
actuator. -/
theorem C4_amended_retry_witness :
    cfgC1.enabled = true ∧
    rC4.state ≠ TimerState.blocked ∧
    cfgC1.limit_minutes * 60 ≤ rC4.totalSeconds ∧
    ((updateAppState cfgC1 true 100 false rC4).actuatorCalled = true ∧
      (updateAppState cfgC1 true 100 false rC4).limitNotified = true ∧
      (updateAppState cfgC1 true 100 false rC4).markedLimit = true ∧
      ((updateAppState cfgC1 true 100 false rC4).record.state
          = TimerState.blocked ↔ false = true) ∧
      (false = false →
        (updateAppState cfgC1 true 100 false rC4).record.state
          = TimerState.monitoring)) :=
  ⟨by decide, by decide, by decide,
    C4_amended_retry cfgC1 100 false rC4 (by decide) (by decide) (by decide)⟩

/-- C2 amended witness at a concrete schedule with an exception in the
middle. -/
theorem C2_amended_loop_stops_witness :
    monitorLoop cfgA recMon [some tickA, none, some tickA]
      = (runTicks cfgA recMon
          ((([some tickA, none, some tickA] :
              List (Option TickIn)).takeWhile Option.isSome).filterMap id),
         ((([some tickA, none, some tickA] :
             List (Option TickIn)).takeWhile Option.isSome).length)) :=
  C2_amended_loop_stops cfgA recMon [some tickA, none, some tickA]

lemma pause_tick_eq (cfg : AppConfig) (he : cfg.enabled = true)
    (s p tot : Nat) (w : Bool) (ok : Bool) (hs : s ≠ 0) :
    loopTick cfg
      { state := TimerState.monitoring, sessionStart := some s,
        totalSeconds := tot, warningSent := w }
      { now := p, active := false, actuatorOk := ok }
      = { state := TimerState.paused, sessionStart := none,
          totalSeconds := tot + (p - s), warningSent := w } := by
  simp [loopTick, updateAppState, he, pauseFlush, noEvents, hs]

lemma resume_tick_eq (cfg : AppConfig) (he : cfg.enabled = true)
    (q tot : Nat) (w : Bool) (ok : Bool)
    (hunder : tot < cfg.limit_minutes * 60) :
    (loopTick cfg
        { state := TimerState.paused, sessionStart := none,
          totalSeconds := tot, warningSent := w }
        { now := q, active := true, actuatorOk := ok }).state
      = TimerState.monitoring ∧
    (loopTick cfg
        { state := TimerState.paused, sessionStart := none,
          totalSeconds := tot, warningSent := w }
        { now := q, active := true, actuatorOk := ok }).sessionStart
      = some q ∧
    (loopTick cfg
        { state := TimerState.paused, sessionStart := none,
          totalSeconds := tot, warningSent := w }
        { now := q, active := true, actuatorOk := ok }).totalSeconds
      = tot := by
  have hnle : ¬ cfg.limit_minutes * 60 ≤ tot := by omega
  cases hwb : warnCond (cfg.limit_minutes * 60)
      { state := TimerState.monitoring, sessionStart := some q,
        totalSeconds := tot, warningSent := w } <;>
    simp [loopTick, updateAppState, he, activeAdvance, hwb, hnle]

lemma AppRecord_eq_of_fields (r : AppRecord) (st : TimerState)
    (ss : Option Nat) (tot : Nat) (w : Bool) (h1 : r.state = st)
    (h2 : r.sessionStart = ss) (h3 : r.totalSeconds = tot)
    (h4 : r.warningSent = w) :
    r = { state := st, sessionStart := ss, totalSeconds := tot,
          warningSent := w } := by
  cases r
  simp_all

lemma cycle_step (cfg : AppConfig) (he : cfg.enabled = true)
    (s p q tot : Nat) (w : Bool) (hs : 0 < s)
    (hunder : tot + (p - s) < cfg.limit_minutes * 60) :
    ∃ w2 : Bool,
      applyCycle cfg
        { state := TimerState.monitoring, sessionStart := some s,
          totalSeconds := tot, warningSent := w } (p, q)
        = { state := TimerState.monitoring, sessionStart := some q,
            totalSeconds := tot + (p - s), warningSent := w2 } := by
  rw [applyCycle]
  rw [pause_tick_eq cfg he s p tot w true (Nat.pos_iff_ne_zero.mp hs)]
  obtain ⟨h1, h2, h3⟩ := resume_tick_eq cfg he q (tot + (p - s)) w true hunder
  exact ⟨_, AppRecord_eq_of_fields _ _ _ _ _ h1 h2 h3 rfl⟩

lemma applyCycles_spec (cfg : AppConfig) (he : cfg.enabled = true) :
    ∀ (cs : List (Nat × Nat)) (s tot : Nat) (w : Bool), 0 < s →
      chainOk s cs = true →
      tot + cycleSum s cs < cfg.limit_minutes * 60 →
      (applyCycles cfg
          { state := TimerState.monitoring, sessionStart := some s,
            totalSeconds := tot, warningSent := w } cs).state
        = TimerState.monitoring ∧
      (applyCycles cfg
          { state := TimerState.monitoring, sessionStart := some s,
            totalSeconds := tot, warningSent := w } cs).sessionStart
        = some (lastStart s cs) ∧
      (applyCycles cfg
          { state := TimerState.monitoring, sessionStart := some s,
            totalSeconds := tot, warningSent := w } cs).totalSeconds
        = tot + cycleSum s cs := by
  intro cs
  induction cs with
  | nil =>
      intro s tot w hs _ _
      simp [applyCycles, lastStart, cycleSum]
  | cons c tl ih =>
      intro s tot w hs hchain hunder
      obtain ⟨p, q⟩ := c
      simp only [chainOk, Bool.and_eq_true, decide_eq_true_eq] at hchain
      obtain ⟨⟨hsp, hpq⟩, hch⟩ := hchain
      simp only [cycleSum] at hunder
      have hq : 0 < q := by omega
      obtain ⟨w2, hw2⟩ := cycle_step cfg he s p q tot w hs (by omega)
      obtain ⟨ih1, ih2, ih3⟩ := ih q (tot + (p - s)) w2 hq hch (by omega)
      simp only [applyCycles, List.foldl_cons] at ih1 ih2 ih3 ⊢
      rw [hw2]
      refine ⟨ih1, ?_, ?_⟩
      · simp only [lastStart]
        exact ih2
      · simp only [cycleSum]
        rw [ih3]
        omega

/-- C6: pause and resume preserve accumulated seconds exactly — a pause
tick flushes exactly the elapsed seconds of the current session (and only
those), a resume tick adds nothing, and over any chain of ordered
pause/resume cycles that stays under the limit, the final accumulated
seconds equal the initial value plus exactly the sum of the foreground
session durations: no loss and no double-count. -/
theorem C6_pause_resume_exact (cfg : AppConfig) (he : cfg.enabled = true) :
    (∀ (s p tot : Nat) (w ok : Bool), 0 < s →
      loopTick cfg
        { state := TimerState.monitoring, sessionStart := some s,
          totalSeconds := tot, warningSent := w }
        { now := p, active := false, actuatorOk := ok }
        = { state := TimerState.paused, sessionStart := none,
            totalSeconds := tot + (p - s), warningSent := w }) ∧
    (∀ (q tot : Nat) (w ok : Bool), tot < cfg.limit_minutes * 60 →
      (loopTick cfg
          { state := TimerState.paused, sessionStart := none,
            totalSeconds := tot, warningSent := w }
          { now := q, active := true, actuatorOk := ok }).totalSeconds = tot ∧
      (loopTick cfg
          { state := TimerState.paused, sessionStart := none,
            totalSeconds := tot, warningSent := w }
          { now := q, active := true, actuatorOk := ok }).state
        = TimerState.monitoring ∧
      (loopTick cfg
          { state := TimerState.paused, sessionStart := none,
            totalSeconds := tot, warningSent := w }
          { now := q, active := true, actuatorOk := ok }).sessionStart
        = some q) ∧
    (∀ (cs : List (Nat × Nat)) (s tot : Nat) (w : Bool), 0 < s →
      chainOk s cs = true →
      tot + cycleSum s cs < cfg.limit_minutes * 60 →
      (applyCycles cfg
          { state := TimerState.monitoring, sessionStart := some s,
            totalSeconds := tot, warningSent := w } cs).totalSeconds
        = tot + cycleSum s cs ∧
      (applyCycles cfg
          { state := TimerState.monitoring, sessionStart := some s,
            totalSeconds := tot, warningSent := w } cs).state
        = TimerState.monitoring ∧
      (applyCycles cfg
          { state := TimerState.monitoring, sessionStart := some s,
            totalSeconds := tot, warningSent := w } cs).sessionStart
        = some (lastStart s cs)) := by
  refine ⟨?_, ?_, ?_⟩
  · intro s p tot w ok hs
    exact pause_tick_eq cfg he s p tot w ok (Nat.pos_iff_ne_zero.mp hs)
  · intro q tot w ok h
    obtain ⟨a, b, c⟩ := resume_tick_eq cfg he q tot w ok h
    exact ⟨c, a, b⟩
  · intro cs s tot w hs hch hu
    obtain ⟨a, b, c⟩ := applyCycles_spec cfg he cs s tot w hs hch hu
    exact ⟨c, a, b⟩

/-- C6 witness: a concrete pause tick and a concrete two-cycle chain. -/
theorem C6_pause_resume_exact_witness :
    cfgA.enabled = true ∧
    (loopTick cfgA
        { state := TimerState.monitoring, sessionStart := some 100,
          totalSeconds := 7, warningSent := false }
        { now := 160, active := false, actuatorOk := true }
      = { state := TimerState.paused, sessionStart := none,
          totalSeconds := 7 + (160 - 100), warningSent := false }) ∧
    (applyCycles cfgA
        { state := TimerState.monitoring, sessionStart := some 10,
          totalSeconds := 0, warningSent := false } [(20, 30), (40, 50)]).totalSeconds
      = 0 + cycleSum 10 [(20, 30), (40, 50)] :=
  ⟨by decide,
    (C6_pause_resume_exact cfgA (by decide)).1 100 160 7 false true (by decide),
    ((C6_pause_resume_exact cfgA (by decide)).2.2 [(20, 30), (40, 50)] 10 0
        false (by decide) (by decide) (by decide)).1⟩
